import Mathlib

/-!
Shallow embedding of the project9 face-mask-detection service, covering the
alert-dispatch cooldown (src/telegram_bot.py), the analytics cache
(src/analytics.py), the camera stream manager (src/camera_manager.py) and the
detection pipeline (src/detection_engine.py).  Time is modelled in integer
seconds, opaque frame payloads as natural-number ids, and external effects
(the chat notifier, the database, the camera transport, the classifier) as
explicit parameters.  Python exceptions are modelled with `Except` or with an
explicit success flag where the raising code has already mutated state.
-/

/-! ## Alert dispatch cooldown (telegram_bot.py, TelegramBot.send_alert) -/

/-- One row of the `Alert` database model as written by `_save_alert`. -/
structure AlertRecord where
  camera_id : String
  alert_type : String
  severity : String
  message : String
  timestamp : Int
deriving DecidableEq, Repr

/-- Mutable state of `TelegramBot` relevant to `send_alert`:
`last_alert_time` is the cooldown dict keyed by `"{camera_id}_{alert_type}"`,
`saved_alerts` the database writes made by `_save_alert`, and `handoffs`
records every `send_message` hand-off to the notifier with its outcome. -/
structure BotState where
  last_alert_time : List (String × Int)
  saved_alerts : List AlertRecord
  handoffs : List (String × Int × Bool)
deriving DecidableEq, Repr

/-- Dictionary lookup `self.last_alert_time[alert_key]`. -/
def lookupTime (m : List (String × Int)) (k : String) : Option Int :=
  (m.find? (fun p => p.1 == k)).map Prod.snd

/-- Dictionary update `self.last_alert_time[alert_key] = current_time`
(replace in place when the key exists, insert at the end otherwise,
matching Python dict semantics). -/
def setTime (m : List (String × Int)) (k : String) (t : Int) : List (String × Int) :=
  if m.any (fun p => p.1 == k) then
    m.map (fun p => if p.1 == k then (k, t) else p)
  else m ++ [(k, t)]

/-- The cooldown test at the top of `send_alert`:
the key is present and `current_time - last < alert_cooldown`. -/
def cooldownBlocked (W : Int) (m : List (String × Int)) (k : String) (now : Int) : Bool :=
  match lookupTime m k with
  | some last => decide (now - last < W)
  | none => false

/-- `TelegramBot.send_alert` with cooldown window `W`;
`notifierOk` is the outcome of the `send_message` hand-off.  On a blocked
cooldown the candidate is discarded with no side effects; otherwise the
message is handed off, and only on success are the cooldown timestamp
updated and the alert persisted. -/
def TelegramBot.send_alert (W : Int) (st : BotState)
    (alert_type camera_id message severity : String)
    (now : Int) (notifierOk : Bool) : Bool × BotState :=
  let alert_key := camera_id ++ "_" ++ alert_type
  if cooldownBlocked W st.last_alert_time alert_key now then
    (false, st)
  else
    let st1 : BotState := { st with handoffs := st.handoffs ++ [(alert_key, now, notifierOk)] }
    if notifierOk then
      (true, { st1 with
        last_alert_time := setTime st1.last_alert_time alert_key now,
        saved_alerts := st1.saved_alerts ++
          [{ camera_id := camera_id, alert_type := alert_type, severity := severity,
             message := message, timestamp := now }] })
    else (false, st1)

/-- Number of successful notifier hand-offs recorded in the state. -/
def successCount (st : BotState) : Nat :=
  (st.handoffs.filter (fun h => h.2.2)).length

lemma lookupTime_append_single (m : List (String × Int)) (k : String) (t : Int)
    (h : lookupTime m k = none) : lookupTime (m ++ [(k, t)]) k = some t := by
  induction m with
  | nil => simp [lookupTime, List.find?]
  | cons a m ih =>
    simp only [lookupTime, List.cons_append, List.find?] at h ⊢
    cases hak : (a.1 == k) with
    | true => simp [hak] at h
    | false =>
      simp only [hak] at h ⊢
      exact ih h

lemma any_key_eq_false_of_lookup_none (m : List (String × Int)) (k : String)
    (h : lookupTime m k = none) : m.any (fun p => p.1 == k) = false := by
  induction m with
  | nil => simp
  | cons a m ih =>
    simp only [lookupTime, List.find?] at h
    cases hak : (a.1 == k) with
    | true => simp [hak] at h
    | false =>
      simp only [hak] at h
      simp [List.any_cons, hak, ih h]

lemma setTime_fresh (m : List (String × Int)) (k : String) (t : Int)
    (h : lookupTime m k = none) : setTime m k t = m ++ [(k, t)] := by
  simp [setTime, any_key_eq_false_of_lookup_none m k h]

/-- C1: for every (source id, alert kind) key with cooldown window W, with the
notifier succeeding, the first candidate alert for a fresh key is dispatched;
a later candidate arriving d after the last successful dispatch is dispatched
iff d >= W; the two candidates produce exactly one notification when d < W and
exactly two when d >= W; and a candidate inside the window is discarded with
no side effects (state unchanged). -/
theorem alert_cooldown_at_most_one_per_window
    (W : Int) (st : BotState) (aty cam msg sev : String) (t0 d : Int)
    (_hd : 0 ≤ d)
    (hfresh : lookupTime st.last_alert_time (cam ++ "_" ++ aty) = none) :
    (TelegramBot.send_alert W st aty cam msg sev t0 true).1 = true ∧
    (((TelegramBot.send_alert W (TelegramBot.send_alert W st aty cam msg sev t0 true).2
        aty cam msg sev (t0 + d) true).1 = true) ↔ W ≤ d) ∧
    successCount (TelegramBot.send_alert W
        (TelegramBot.send_alert W st aty cam msg sev t0 true).2
        aty cam msg sev (t0 + d) true).2
      = successCount st + (if d < W then 1 else 2) ∧
    (d < W →
      (TelegramBot.send_alert W (TelegramBot.send_alert W st aty cam msg sev t0 true).2
        aty cam msg sev (t0 + d) true).2
        = (TelegramBot.send_alert W st aty cam msg sev t0 true).2) := by
  have hb0 : cooldownBlocked W st.last_alert_time (cam ++ "_" ++ aty) t0 = false := by
    simp [cooldownBlocked, hfresh]
  have h1 : TelegramBot.send_alert W st aty cam msg sev t0 true =
      (true, { st with
        handoffs := st.handoffs ++ [(cam ++ "_" ++ aty, t0, true)],
        last_alert_time := setTime st.last_alert_time (cam ++ "_" ++ aty) t0,
        saved_alerts := st.saved_alerts ++ [⟨cam, aty, sev, msg, t0⟩] }) := by
    simp [TelegramBot.send_alert, hb0]
  have hl : lookupTime (setTime st.last_alert_time (cam ++ "_" ++ aty) t0)
      (cam ++ "_" ++ aty) = some t0 := by
    rw [setTime_fresh _ _ _ hfresh]
    exact lookupTime_append_single _ _ _ hfresh
  have hb2 : cooldownBlocked W (setTime st.last_alert_time (cam ++ "_" ++ aty) t0)
      (cam ++ "_" ++ aty) (t0 + d) = decide (d < W) := by
    simp [cooldownBlocked, hl]
  by_cases hdW : d < W
  · have h2 : TelegramBot.send_alert W
        (TelegramBot.send_alert W st aty cam msg sev t0 true).2
        aty cam msg sev (t0 + d) true
        = (false, (TelegramBot.send_alert W st aty cam msg sev t0 true).2) := by
      rw [h1]
      simp [TelegramBot.send_alert, hb2, hdW]
    refine ⟨by rw [h1], ?_, ?_, fun _ => by rw [h2]⟩
    · rw [h2]
      simp
      omega
    · rw [h2, h1]
      simp [successCount, List.filter_append, hdW]
  · have h2 : TelegramBot.send_alert W
        (TelegramBot.send_alert W st aty cam msg sev t0 true).2
        aty cam msg sev (t0 + d) true
        = (true, { (TelegramBot.send_alert W st aty cam msg sev t0 true).2 with
            handoffs := (TelegramBot.send_alert W st aty cam msg sev t0 true).2.handoffs
              ++ [(cam ++ "_" ++ aty, t0 + d, true)],
            last_alert_time := setTime
              (TelegramBot.send_alert W st aty cam msg sev t0 true).2.last_alert_time
              (cam ++ "_" ++ aty) (t0 + d),
            saved_alerts := (TelegramBot.send_alert W st aty cam msg sev t0 true).2.saved_alerts
              ++ [⟨cam, aty, sev, msg, t0 + d⟩] }) := by
      conv_lhs => rw [h1]
      rw [h1]
      simp [TelegramBot.send_alert, hb2, hdW]
    refine ⟨by rw [h1], ?_, ?_, fun hc => absurd hc hdW⟩
    · rw [h2]
      simp
      omega
    · rw [h2, h1]
      simp [successCount, List.filter_append, hdW]

/-- Witness for C1 at the concrete input W = 5, fresh state, t0 = 100, d = 2. -/
theorem alert_cooldown_at_most_one_per_window_witness :
    (0 : Int) ≤ 2 ∧
    lookupTime (BotState.mk [] [] []).last_alert_time ("c" ++ "_" ++ "v") = none ∧
    ((TelegramBot.send_alert 5 ⟨[], [], []⟩ "v" "c" "m" "h" 100 true).1 = true ∧
    (((TelegramBot.send_alert 5 (TelegramBot.send_alert 5 ⟨[], [], []⟩ "v" "c" "m" "h" 100 true).2
        "v" "c" "m" "h" (100 + 2) true).1 = true) ↔ (5 : Int) ≤ 2) ∧
    successCount (TelegramBot.send_alert 5
        (TelegramBot.send_alert 5 ⟨[], [], []⟩ "v" "c" "m" "h" 100 true).2
        "v" "c" "m" "h" (100 + 2) true).2
      = successCount ⟨[], [], []⟩ + (if (2 : Int) < 5 then 1 else 2) ∧
    ((2 : Int) < 5 →
      (TelegramBot.send_alert 5 (TelegramBot.send_alert 5 ⟨[], [], []⟩ "v" "c" "m" "h" 100 true).2
        "v" "c" "m" "h" (100 + 2) true).2
        = (TelegramBot.send_alert 5 ⟨[], [], []⟩ "v" "c" "m" "h" 100 true).2)) :=
  ⟨by decide, by rfl,
    alert_cooldown_at_most_one_per_window 5 ⟨[], [], []⟩ "v" "c" "m" "h" 100 2
      (by decide) (by rfl)⟩

/-- C2: a failed notifier hand-off returns false, leaves the cooldown
timestamp for the key and the persisted alerts unchanged, so an immediately
following eligible candidate for the same key is dispatched (retried); the
cooldown timestamp and the persisted record are written on a successful
hand-off. -/
theorem alert_failed_handoff_no_cooldown_update
    (W : Int) (st : BotState) (aty cam msg sev : String) (now now2 : Int)
    (h1 : cooldownBlocked W st.last_alert_time (cam ++ "_" ++ aty) now = false)
    (h2 : cooldownBlocked W st.last_alert_time (cam ++ "_" ++ aty) now2 = false) :
    (TelegramBot.send_alert W st aty cam msg sev now false).1 = false ∧
    (TelegramBot.send_alert W st aty cam msg sev now false).2.last_alert_time
      = st.last_alert_time ∧
    (TelegramBot.send_alert W st aty cam msg sev now false).2.saved_alerts
      = st.saved_alerts ∧
    (TelegramBot.send_alert W (TelegramBot.send_alert W st aty cam msg sev now false).2
        aty cam msg sev now2 true).1 = true ∧
    (TelegramBot.send_alert W st aty cam msg sev now true).2.last_alert_time
      = setTime st.last_alert_time (cam ++ "_" ++ aty) now ∧
    (TelegramBot.send_alert W st aty cam msg sev now true).2.saved_alerts
      = st.saved_alerts ++ [⟨cam, aty, sev, msg, now⟩] := by
  have hfail : TelegramBot.send_alert W st aty cam msg sev now false =
      (false, { st with handoffs := st.handoffs ++ [(cam ++ "_" ++ aty, now, false)] }) := by
    simp [TelegramBot.send_alert, h1]
  have hretry : TelegramBot.send_alert W
      { st with handoffs := st.handoffs ++ [(cam ++ "_" ++ aty, now, false)] }
      aty cam msg sev now2 true
      = (true, { st with
          handoffs := st.handoffs ++ [(cam ++ "_" ++ aty, now, false),
            (cam ++ "_" ++ aty, now2, true)],
          last_alert_time := setTime st.last_alert_time (cam ++ "_" ++ aty) now2,
          saved_alerts := st.saved_alerts ++ [⟨cam, aty, sev, msg, now2⟩] }) := by
    simp [TelegramBot.send_alert, h2]
  have hok : TelegramBot.send_alert W st aty cam msg sev now true =
      (true, { st with
        handoffs := st.handoffs ++ [(cam ++ "_" ++ aty, now, true)],
        last_alert_time := setTime st.last_alert_time (cam ++ "_" ++ aty) now,
        saved_alerts := st.saved_alerts ++ [⟨cam, aty, sev, msg, now⟩] }) := by
    simp [TelegramBot.send_alert, h1]
  refine ⟨by rw [hfail], by rw [hfail], by rw [hfail], ?_, by rw [hok], by rw [hok]⟩
  rw [hfail, hretry]

/-- Witness for C2 at the concrete input W = 5, fresh state, now = 1, now2 = 2. -/
theorem alert_failed_handoff_no_cooldown_update_witness :
    cooldownBlocked 5 (BotState.mk [] [] []).last_alert_time ("c" ++ "_" ++ "v") 1 = false ∧
    cooldownBlocked 5 (BotState.mk [] [] []).last_alert_time ("c" ++ "_" ++ "v") 2 = false ∧
    ((TelegramBot.send_alert 5 ⟨[], [], []⟩ "v" "c" "m" "h" 1 false).1 = false ∧
    (TelegramBot.send_alert 5 ⟨[], [], []⟩ "v" "c" "m" "h" 1 false).2.last_alert_time
      = (BotState.mk [] [] []).last_alert_time ∧
    (TelegramBot.send_alert 5 ⟨[], [], []⟩ "v" "c" "m" "h" 1 false).2.saved_alerts
      = (BotState.mk [] [] []).saved_alerts ∧
    (TelegramBot.send_alert 5 (TelegramBot.send_alert 5 ⟨[], [], []⟩ "v" "c" "m" "h" 1 false).2
        "v" "c" "m" "h" 2 true).1 = true ∧
    (TelegramBot.send_alert 5 ⟨[], [], []⟩ "v" "c" "m" "h" 1 true).2.last_alert_time
      = setTime (BotState.mk [] [] []).last_alert_time ("c" ++ "_" ++ "v") 1 ∧
    (TelegramBot.send_alert 5 ⟨[], [], []⟩ "v" "c" "m" "h" 1 true).2.saved_alerts
      = (BotState.mk [] [] []).saved_alerts ++ [⟨"c", "v", "h", "m", 1⟩]) :=
  ⟨by rfl, by rfl,
    alert_failed_handoff_no_cooldown_update 5 ⟨[], [], []⟩ "v" "c" "m" "h" 1 2
      (by rfl) (by rfl)⟩

/-! ## Analytics cache (analytics.py, AnalyticsEngine.get_analytics)

Wall-clock time is modelled in integer seconds.  The Python cache-freshness
test `(datetime.now() - timestamp).seconds < self.cache_ttl` uses the
`seconds` component of a `timedelta` (the total elapsed time modulo one day,
86400 seconds), not the total elapsed time; the embedding reproduces that.
Python float `round(x, 2)` on the rate percentages is abstracted to the exact
rational value.  The SQL group-by over cameras is embedded as a scan in
first-occurrence order, and the group-by over hours followed by the explicit
ascending sort (`hourly_stats.sort(key=...)`) is embedded as an ascending scan
over hours 0..23, which yields the same sorted list. -/

/-- One row of the `Detection` database model as read by the analytics
queries. -/
structure DetectionRow where
  camera_id : String
  timestamp : Int
  face_count : Nat
  mask_count : Nat
  no_mask_count : Nat
  confidence_score : ℚ
deriving DecidableEq, Repr

/-- The persistence tables consulted by `get_analytics`: detections, alerts
and the camera table used for display names. -/
structure DbData where
  detections : List DetectionRow
  alerts : List AlertRecord
  cameras : List (String × String)
deriving DecidableEq, Repr

/-- The `summary` block of the analytics dict. -/
structure AnalyticsSummary where
  total_detections : Nat
  total_faces : Nat
  total_masks : Nat
  total_violations : Nat
  mask_rate : ℚ
  violation_rate : ℚ
deriving DecidableEq, Repr

/-- One entry of `camera_statistics`. -/
structure CameraStat where
  camera_id : String
  name : String
  detections : Nat
  total_faces : Nat
  total_masks : Nat
  total_violations : Nat
  mask_rate : ℚ
  violation_rate : ℚ
deriving DecidableEq, Repr

/-- One entry of `hourly_breakdown`. -/
structure HourStat where
  hour : Nat
  detections : Nat
  total_faces : Nat
  total_masks : Nat
  total_violations : Nat
  mask_rate : ℚ
  violation_rate : ℚ
deriving DecidableEq, Repr

/-- The full analytics dict built by `get_analytics` on a cache miss. -/
structure Snapshot where
  period : String
  start_date : Int
  end_date : Int
  summary : AnalyticsSummary
  camera_statistics : List CameraStat
  hourly_breakdown : List HourStat
  alerts_total : Nat
  alerts_by_type : List (String × Nat)
  alerts_by_severity : List (String × Nat)
deriving DecidableEq, Repr

/-- `self.cache`: a dict keyed by `"analytics_{period}"` holding
`(analytics_data, timestamp)` pairs. -/
abbrev AnalyticsCache := List (String × Snapshot × Int)

/-- Cache dict lookup. -/
def cacheLookup (c : AnalyticsCache) (k : String) : Option (Snapshot × Int) :=
  (List.find? (fun p => p.1 == k) c).map Prod.snd

/-- Cache dict store `self.cache[cache_key] = (analytics_data, datetime.now())`. -/
def cacheSet (c : AnalyticsCache) (k : String) (v : Snapshot × Int) : AnalyticsCache :=
  if List.any c (fun p => p.1 == k) then
    List.map (fun p => if p.1 == k then (k, v) else p) c
  else c ++ [(k, v)]

/-- `self.cache_ttl = 300  # 5 minutes cache`. -/
def cache_ttl : Int := 300

/-- The `seconds` attribute of a Python `timedelta` of `a` total seconds:
after normalisation it is the part left over below one day, `a % 86400`
(floor modulus, matching `Int.emod` for the positive divisor). -/
def timedeltaSeconds (a : Int) : Int := a % 86400

/-- The date-range computation of `get_analytics`: `today` starts at local
midnight, `week` 7 days back, `month` 30 days back, anything else falls back
to one day back; the end is always `now`. -/
def periodRange (period : String) (now : Int) : Int × Int :=
  if period == "today" then (now - now % 86400, now)
  else if period == "week" then (now - 7 * 86400, now)
  else if period == "month" then (now - 30 * 86400, now)
  else (now - 86400, now)

/-- SQL filter `timestamp >= start_date AND timestamp <= end_date`. -/
def inRange (startD endD t : Int) : Bool := decide (startD ≤ t) && decide (t ≤ endD)

/-- The guarded percentage `count / total_faces * 100`, 0 when
`total_faces` is 0. -/
def ratePct (count total : Nat) : ℚ :=
  if 0 < total then (count : ℚ) / (total : ℚ) * 100 else 0

/-- Distinct keys of a list in first-occurrence order (the iteration order of
a SQL group-by result as the embedding fixes it). -/
def dedupKeys (l : List String) : List String :=
  l.foldl (fun acc x => if acc.contains x then acc else acc ++ [x]) []

/-- `_get_camera_statistics`: group the ranged detections by camera id,
total the counts, attach the camera display name (`Unknown` when absent)
and the guarded rates. -/
def cameraStatistics (cams : List (String × String)) (dets : List DetectionRow) :
    List CameraStat :=
  (dedupKeys (dets.map (fun d => d.camera_id))).map (fun cid =>
    let ds := dets.filter (fun d => d.camera_id == cid)
    let tf := (ds.map (fun d => d.face_count)).sum
    let tm := (ds.map (fun d => d.mask_count)).sum
    let tv := (ds.map (fun d => d.no_mask_count)).sum
    { camera_id := cid,
      name := (((cams.find? (fun p => p.1 == cid)).map Prod.snd).getD "Unknown"),
      detections := ds.length, total_faces := tf, total_masks := tm,
      total_violations := tv, mask_rate := ratePct tm tf,
      violation_rate := ratePct tv tf })

/-- Hour-of-day of a timestamp in seconds. -/
def hourOf (t : Int) : Nat := (t % 86400).toNat / 3600

/-- `_get_hourly_statistics`: group the ranged detections by hour of day and
sort ascending; embedded directly as an ascending scan over hours 0..23,
skipping empty hours. -/
def hourlyStatistics (dets : List DetectionRow) : List HourStat :=
  ((List.range 24).filter (fun h => dets.any (fun d => hourOf d.timestamp == h))).map
    (fun h =>
      let ds := dets.filter (fun d => hourOf d.timestamp == h)
      let tf := (ds.map (fun d => d.face_count)).sum
      let tm := (ds.map (fun d => d.mask_count)).sum
      let tv := (ds.map (fun d => d.no_mask_count)).sum
      { hour := h, detections := ds.length, total_faces := tf, total_masks := tm,
        total_violations := tv, mask_rate := ratePct tm tf,
        violation_rate := ratePct tv tf })

/-- `_group_alerts_by_type` / `_group_alerts_by_severity`: count occurrences
into a dict in insertion order. -/
def groupCounts (ks : List String) : List (String × Nat) :=
  ks.foldl (fun m k =>
    if List.any m (fun p => p.1 == k) then
      List.map (fun p => if p.1 == k then (p.1, p.2 + 1) else p) m
    else m ++ [(k, 1)]) []

/-- The recomputation body of `get_analytics` (inside the `try`): filter the
detections and alerts to the period range and assemble the analytics dict. -/
def computeSnapshot (period : String) (now : Int) (db : DbData) : Snapshot :=
  let r := periodRange period now
  let dets := db.detections.filter (fun d => inRange r.1 r.2 d.timestamp)
  let total_faces := (dets.map (fun d => d.face_count)).sum
  let total_masks := (dets.map (fun d => d.mask_count)).sum
  let total_violations := (dets.map (fun d => d.no_mask_count)).sum
  let alerts := db.alerts.filter (fun a => inRange r.1 r.2 a.timestamp)
  { period := period, start_date := r.1, end_date := r.2,
    summary :=
      { total_detections := dets.length, total_faces := total_faces,
        total_masks := total_masks, total_violations := total_violations,
        mask_rate := ratePct total_masks total_faces,
        violation_rate := ratePct total_violations total_faces },
    camera_statistics := cameraStatistics db.cameras dets,
    hourly_breakdown := hourlyStatistics dets,
    alerts_total := alerts.length,
    alerts_by_type := groupCounts (alerts.map (fun a => a.alert_type)),
    alerts_by_severity := groupCounts (alerts.map (fun a => a.severity)) }

/-- The cache-hit test of `get_analytics`: the key is present and
`(datetime.now() - timestamp).seconds < self.cache_ttl`. -/
def cacheHasFresh (now : Int) (c : AnalyticsCache) (k : String) : Bool :=
  match cacheLookup c k with
  | some (_, ts) => decide (timedeltaSeconds (now - ts) < cache_ttl)
  | none => false

/-- `AnalyticsEngine.get_analytics`: return the cached dict on a hit;
otherwise recompute from persistence, store the result in the cache and
return it; any failure of the persistence layer (`db = Except.error`) is
caught and yields the empty dict (`none`) with the cache untouched. -/
def AnalyticsEngine.get_analytics (now : Int) (cache : AnalyticsCache)
    (period : String) (db : Except Unit DbData) : Option Snapshot × AnalyticsCache :=
  let cache_key := "analytics_" ++ period
  if cacheHasFresh now cache cache_key then
    match cacheLookup cache cache_key with
    | some (data, _) => (some data, cache)
    | none => (none, cache)
  else
    match db with
    | Except.error _ => (none, cache)
    | Except.ok d =>
      let snap := computeSnapshot period now d
      (some snap, cacheSet cache cache_key (snap, now))

/-- A snapshot computed at time 0 over an empty database, used as a cached
entry in the stale-cache scenario. -/
def snapEmptyToday : Snapshot := computeSnapshot "today" 0 ⟨[], [], []⟩

/-- Database contents at the later query: one detection inside the range of
`today` as seen from time 86450. -/
def dbLater : DbData :=
  ⟨[⟨"cam1", 86420, 2, 1, 1, 1⟩], [], [("cam1", "Cam One")]⟩

/-- C3: a cached snapshot older than cache_ttl (300 seconds) is never
returned.  FALSIFIED by the code: the freshness test uses the `seconds`
component of the timedelta (elapsed time modulo one day), so a snapshot
cached at t = 50 and queried at t = 86450 — 86400 seconds (one full day)
old, far beyond the 300-second TTL — is returned as a cache hit, with no
recomputation and no cache replacement, even though recomputing from the
current data would give a different snapshot. -/
theorem analytics_stale_cache_returned :
    cache_ttl ≤ (86450 : Int) - 50 ∧
    AnalyticsEngine.get_analytics 86450 [("analytics_today", snapEmptyToday, 50)]
        "today" (Except.ok dbLater)
      = (some snapEmptyToday, [("analytics_today", snapEmptyToday, 50)]) ∧
    computeSnapshot "today" 86450 dbLater ≠ snapEmptyToday := by
  refine ⟨by decide, by decide, by decide⟩

/-- C10: `get_analytics` never propagates a persistence failure: whatever the
period and the cache, a failing persistence layer leaves the cache unmodified,
and when the cache has no fresh entry (so the query actually runs and fails)
the call returns the empty dict with the cache untouched; an unrecognized
period string falls back to the default one-day window. -/
theorem analytics_error_containment
    (now : Int) (cache : AnalyticsCache) (period : String) (e : Unit) :
    (AnalyticsEngine.get_analytics now cache period (Except.error e)).2 = cache ∧
    (cacheHasFresh now cache ("analytics_" ++ period) = false →
      AnalyticsEngine.get_analytics now cache period (Except.error e) = (none, cache)) ∧
    ((period ≠ "today" ∧ period ≠ "week" ∧ period ≠ "month") →
      periodRange period now = (now - 86400, now)) := by
  refine ⟨?_, ?_, ?_⟩
  · by_cases h : cacheHasFresh now cache ("analytics_" ++ period)
    · cases hl : cacheLookup cache ("analytics_" ++ period) with
      | none => simp [AnalyticsEngine.get_analytics, h, hl]
      | some v => simp [AnalyticsEngine.get_analytics, h, hl]
    · simp [AnalyticsEngine.get_analytics, h]
  · intro h
    simp [AnalyticsEngine.get_analytics, h]
  · rintro ⟨h1, h2, h3⟩
    simp [periodRange, h1, h2, h3]

/-- Witness for C10 at now = 7, a one-entry cache, and the unrecognized
period `yesterday`. -/
theorem analytics_error_containment_witness :
    ((AnalyticsEngine.get_analytics 7 [("analytics_today", snapEmptyToday, 0)]
        "yesterday" (Except.error ())).2 = [("analytics_today", snapEmptyToday, 0)] ∧
    (cacheHasFresh 7 [("analytics_today", snapEmptyToday, 0)]
        ("analytics_" ++ "yesterday") = false →
      AnalyticsEngine.get_analytics 7 [("analytics_today", snapEmptyToday, 0)]
        "yesterday" (Except.error ())
        = (none, [("analytics_today", snapEmptyToday, 0)])) ∧
    (("yesterday" ≠ "today" ∧ "yesterday" ≠ "week" ∧ "yesterday" ≠ "month") →
      periodRange "yesterday" 7 = (7 - 86400, 7))) :=
  analytics_error_containment 7 [("analytics_today", snapEmptyToday, 0)] "yesterday" ()

/-! ## Camera streams (camera_manager.py, CameraStream / CameraManager) -/

/-- A `FrameEnvelope` as pushed by `_stream_loop`: opaque payload id, capture
timestamp, source id. -/
structure FrameEnvelope where
  frame : Nat
  timestamp : Int
  camera_id : String
deriving DecidableEq, Repr

/-- The per-stream bounded frame buffer together with its counters
(`frame_queue`, `total_frames`, `dropped_frames`). -/
structure StreamBuf where
  frame_queue : List FrameEnvelope
  total_frames : Nat
  dropped_frames : Nat
deriving DecidableEq, Repr

/-- One successful-read iteration of `CameraStream._stream_loop`:
`put_nowait` raises `queue.Full` exactly when the queue is bounded
(`maxsize > 0`) and already holds `maxsize` items; then the new frame is
discarded and `dropped_frames` incremented; otherwise the frame is appended
and `total_frames` incremented. -/
def CameraStream.pushFrame (maxsize : Nat) (st : StreamBuf) (f : FrameEnvelope) : StreamBuf :=
  if 0 < maxsize ∧ maxsize ≤ st.frame_queue.length then
    { st with dropped_frames := st.dropped_frames + 1 }
  else
    { st with frame_queue := st.frame_queue ++ [f],
              total_frames := st.total_frames + 1 }

/-- A sequence of successful-read capture-loop iterations with no consumer
pulling. -/
def CameraStream.pushFrames (maxsize : Nat) (st : StreamBuf) (fs : List FrameEnvelope) :
    StreamBuf :=
  fs.foldl (CameraStream.pushFrame maxsize) st

lemma pushFrames_general (C : Nat) (hC : 0 < C) :
    ∀ (fs : List FrameEnvelope) (q : List FrameEnvelope) (t d : Nat), q.length ≤ C →
    CameraStream.pushFrames C ⟨q, t, d⟩ fs =
      ⟨q ++ fs.take (C - q.length), t + min (C - q.length) fs.length,
        d + (fs.length - (C - q.length))⟩ := by
  intro fs
  induction fs with
  | nil =>
    intro q t d _
    simp [CameraStream.pushFrames]
  | cons f fs ih =>
    intro q t d hq
    by_cases hlt : q.length < C
    · have hcond : ¬(0 < C ∧ C ≤ q.length) := by omega
      have hstep : CameraStream.pushFrame C ⟨q, t, d⟩ f = ⟨q ++ [f], t + 1, d⟩ := by
        simp [CameraStream.pushFrame, hcond]
      have hq1 : (q ++ [f]).length ≤ C := by
        simp
        omega
      have hk : C - q.length = (C - (q.length + 1)) + 1 := by omega
      have hmain : CameraStream.pushFrames C ⟨q, t, d⟩ (f :: fs)
          = CameraStream.pushFrames C ⟨q ++ [f], t + 1, d⟩ fs := by
        simp [CameraStream.pushFrames, List.foldl_cons, hstep]
      rw [hmain, ih _ _ _ hq1]
      refine StreamBuf.mk.injEq .. ▸ ⟨?_, ?_, ?_⟩
      · rw [hk, List.take_succ_cons, List.append_assoc]
        simp
      · simp [hk]
        omega
      · simp [hk]
    · have hcond : 0 < C ∧ C ≤ q.length := ⟨hC, by omega⟩
      have hstep : CameraStream.pushFrame C ⟨q, t, d⟩ f = ⟨q, t, d + 1⟩ := by
        simp [CameraStream.pushFrame, hcond]
      have hk : C - q.length = 0 := by omega
      have hmain : CameraStream.pushFrames C ⟨q, t, d⟩ (f :: fs)
          = CameraStream.pushFrames C ⟨q, t, d + 1⟩ fs := by
        simp [CameraStream.pushFrames, List.foldl_cons, hstep]
      rw [hmain, ih _ _ _ hq]
      refine StreamBuf.mk.injEq .. ▸ ⟨?_, ?_, ?_⟩
      · simp [hk]
      · simp [hk]
      · simp [hk]
        omega

/-- C4: for every sequence of N successful capture-loop pushes into a buffer
of capacity C with N > C and no consumer pulling, the dropped-frame counter
ends at exactly N - C, the buffer retains exactly the C frames pushed before
saturation (the first C, in arrival order — overflow frames are the ones
discarded, never the oldest buffered frame), and `total_frames` counts the
C enqueued frames. -/
theorem frame_buffer_drop_newest (C : Nat) (fs : List FrameEnvelope)
    (hC : 0 < C) (hN : C < fs.length) :
    (CameraStream.pushFrames C ⟨[], 0, 0⟩ fs).dropped_frames = fs.length - C ∧
    (CameraStream.pushFrames C ⟨[], 0, 0⟩ fs).frame_queue = fs.take C ∧
    (CameraStream.pushFrames C ⟨[], 0, 0⟩ fs).total_frames = C := by
  have h := pushFrames_general C hC fs [] 0 0 (by simp)
  rw [h]
  refine ⟨by simp, by simp, ?_⟩
  simp
  omega

/-- Witness for C4: capacity 2, five pushes, three drops, the first two
frames retained in arrival order (the end-to-end scenario of the spec). -/
theorem frame_buffer_drop_newest_witness :
    0 < 2 ∧ 2 < ([⟨0, 0, "cam1"⟩, ⟨1, 1, "cam1"⟩, ⟨2, 2, "cam1"⟩,
        ⟨3, 3, "cam1"⟩, ⟨4, 4, "cam1"⟩] : List FrameEnvelope).length ∧
    ((CameraStream.pushFrames 2 ⟨[], 0, 0⟩ [⟨0, 0, "cam1"⟩, ⟨1, 1, "cam1"⟩,
        ⟨2, 2, "cam1"⟩, ⟨3, 3, "cam1"⟩, ⟨4, 4, "cam1"⟩]).dropped_frames
      = ([⟨0, 0, "cam1"⟩, ⟨1, 1, "cam1"⟩, ⟨2, 2, "cam1"⟩, ⟨3, 3, "cam1"⟩,
        ⟨4, 4, "cam1"⟩] : List FrameEnvelope).length - 2 ∧
    (CameraStream.pushFrames 2 ⟨[], 0, 0⟩ [⟨0, 0, "cam1"⟩, ⟨1, 1, "cam1"⟩,
        ⟨2, 2, "cam1"⟩, ⟨3, 3, "cam1"⟩, ⟨4, 4, "cam1"⟩]).frame_queue
      = ([⟨0, 0, "cam1"⟩, ⟨1, 1, "cam1"⟩, ⟨2, 2, "cam1"⟩, ⟨3, 3, "cam1"⟩,
        ⟨4, 4, "cam1"⟩] : List FrameEnvelope).take 2 ∧
    (CameraStream.pushFrames 2 ⟨[], 0, 0⟩ [⟨0, 0, "cam1"⟩, ⟨1, 1, "cam1"⟩,
        ⟨2, 2, "cam1"⟩, ⟨3, 3, "cam1"⟩, ⟨4, 4, "cam1"⟩]).total_frames = 2) :=
  ⟨by decide, by decide,
    frame_buffer_drop_newest 2 [⟨0, 0, "cam1"⟩, ⟨1, 1, "cam1"⟩, ⟨2, 2, "cam1"⟩,
      ⟨3, 3, "cam1"⟩, ⟨4, 4, "cam1"⟩] (by decide) (by decide)⟩

/-- The transport handle produced by `cv2.VideoCapture`; `opened` is the
outcome of `isOpened()`. -/
structure CamHandle where
  handle_id : Nat
  opened : Bool
deriving DecidableEq, Repr

/-- The mutable state of one `CameraStream`: identity fields, the transport
handle `cap`, the lifecycle flags, the list of capture-loop threads spawned
so far, and the frame buffer with its counters. -/
structure CamState where
  camera_id : String
  name : String
  camera_type : String
  cap : Option CamHandle
  is_running : Bool
  is_active : Bool
  threads : List Nat
  buf : StreamBuf
deriving DecidableEq, Repr

/-- `CameraStream.start`, parameterised by the handle `h` the transport
returns and the id `tid` of the thread that would be spawned.  The method has
no already-running guard: it unconditionally replaces `self.cap`; when the
handle reports open it sets the flags and spawns a new capture-loop thread;
when not, it raises (`some` error message) after `self.cap` has already been
reassigned. -/
def CameraStream.start (h : CamHandle) (tid : Nat) (st : CamState) :
    CamState × Option String :=
  let st1 := { st with cap := some h }
  if h.opened then
    ({ st1 with is_running := true, is_active := true,
                threads := st.threads ++ [tid] }, none)
  else
    (st1, some ("Failed to open camera " ++ st.camera_id))

/-- A camera whose capture loop is already running (one capture thread
alive, open handle). -/
def runningCam : CamState :=
  { camera_id := "cam1", name := "Cam One", camera_type := "ip",
    cap := some ⟨0, true⟩, is_running := true, is_active := true,
    threads := [0], buf := ⟨[], 0, 0⟩ }

/-- C8 counterexample: calling `start()` on an already-running source is NOT
a no-op — at a concrete running source the state changes and a second
capture-loop thread is spawned. -/
theorem camera_start_on_running_counterexample :
    runningCam.is_running = true ∧
    (CameraStream.start ⟨1, true⟩ 1 runningCam).1 ≠ runningCam ∧
    (CameraStream.start ⟨1, true⟩ 1 runningCam).1.threads.length = 2 := by
  decide

/-- C8 amended: calling `start()` on an already-running source is not a
no-op: there is no running-state guard, so it replaces the transport handle
with the freshly opened one and spawns an additional capture-loop thread
(leaving the running flag true and raising no error). -/
theorem camera_start_on_running_spawns_second_loop
    (h : CamHandle) (tid : Nat) (st : CamState)
    (_hrun : st.is_running = true) (ho : h.opened = true) :
    (CameraStream.start h tid st).1.threads = st.threads ++ [tid] ∧
    (CameraStream.start h tid st).1.cap = some h ∧
    (CameraStream.start h tid st).1.is_running = true ∧
    (CameraStream.start h tid st).2 = none := by
  simp [CameraStream.start, ho]

/-- Witness for the amended C8 at the concrete running camera. -/
theorem camera_start_on_running_spawns_second_loop_witness :
    runningCam.is_running = true ∧ (CamHandle.mk 1 true).opened = true ∧
    ((CameraStream.start ⟨1, true⟩ 1 runningCam).1.threads = runningCam.threads ++ [1] ∧
    (CameraStream.start ⟨1, true⟩ 1 runningCam).1.cap = some ⟨1, true⟩ ∧
    (CameraStream.start ⟨1, true⟩ 1 runningCam).1.is_running = true ∧
    (CameraStream.start ⟨1, true⟩ 1 runningCam).2 = none) :=
  ⟨by decide, by decide,
    camera_start_on_running_spawns_second_loop ⟨1, true⟩ 1 runningCam
      (by decide) (by decide)⟩

/-- The state of `CameraManager`: `self.cameras.values()` in insertion order,
plus the manager running flag.  `_load_cameras` reads id, name, type, url,
device_id and location only — no active flag — so every loaded
`CameraStream` begins with `is_active = false`. -/
structure ManagerState where
  cameras : List CamState
  is_running : Bool
deriving DecidableEq, Repr

/-- `CameraManager.start` ("startAll"): sets the manager flag and calls
`CameraStream.start` on EVERY camera in the dict — there is no filter on any
active flag; the per-camera `try/except` logs and discards the error
component, so the iteration always continues with the next camera.
`behav` gives, per source id, the handle the transport would return and the
thread id that would be spawned. -/
def CameraManager.start (behav : String → CamHandle × Nat) (m : ManagerState) :
    ManagerState :=
  { is_running := true,
    cameras := m.cameras.map (fun c =>
      (CameraStream.start (behav c.camera_id).1 (behav c.camera_id).2 c).1) }

/-- A configured camera whose active flag is false (as every camera is right
after `_load_cameras`). -/
def inactiveCam : CamState :=
  { camera_id := "cam1", name := "Cam One", camera_type := "ip",
    cap := none, is_running := false, is_active := false,
    threads := [], buf := ⟨[], 0, 0⟩ }

/-- A transport behaviour whose handles always open. -/
def openBehav : String → CamHandle × Nat := fun _ => (⟨7, true⟩, 5)

/-- C6 counterexample: `startAll()` does NOT restrict itself to sources with
`active = true` — a manager holding one source whose active flag is false
still gets `start()` called on it (the source ends up running with a capture
thread spawned). -/
theorem camera_startAll_ignores_active_flag :
    inactiveCam.is_active = false ∧
    ((CameraManager.start openBehav ⟨[inactiveCam], false⟩).cameras.map
      (fun c => c.is_running)) = [true] ∧
    ((CameraManager.start openBehav ⟨[inactiveCam], false⟩).cameras.map
      (fun c => c.threads)) = [[5]] := by
  decide

/-- C6 amended: `startAll()` calls `start()` on every configured source
regardless of the active flag, and a `start()` failure on one source is
caught and logged and does not prevent `start()` from being attempted on
every remaining source: for any transport behaviour, every source keeps its
slot, gets the transport opened on it, and whenever its own handle opens it
ends up running with a new capture thread — independently of failures on any
other source. -/
theorem camera_startAll_attempts_every_source
    (behav : String → CamHandle × Nat) (m : ManagerState) (c : CamState)
    (hc : c ∈ m.cameras) :
    (CameraManager.start behav m).cameras.length = m.cameras.length ∧
    ∃ c2 ∈ (CameraManager.start behav m).cameras,
      c2.camera_id = c.camera_id ∧ c2.cap = some (behav c.camera_id).1 ∧
      ((behav c.camera_id).1.opened = true →
        c2.is_running = true ∧ c2.threads = c.threads ++ [(behav c.camera_id).2]) := by
  constructor
  · simp [CameraManager.start]
  · refine ⟨(CameraStream.start (behav c.camera_id).1 (behav c.camera_id).2 c).1,
      List.mem_map_of_mem _ hc, ?_⟩
    by_cases ho : (behav c.camera_id).1.opened
    · simp [CameraStream.start, ho]
    · simp [CameraStream.start, ho]

/-- Witness for the amended C6: a two-camera fleet in which the first
camera's transport fails to open while the second camera still gets started
and ends up running. -/
theorem camera_startAll_attempts_every_source_witness :
    inactiveCam ∈ (ManagerState.mk
      [{ inactiveCam with camera_id := "cam0" }, inactiveCam] false).cameras ∧
    ((CameraManager.start (fun cid => if cid == "cam0" then (⟨3, false⟩, 4) else (⟨7, true⟩, 5))
        (ManagerState.mk [{ inactiveCam with camera_id := "cam0" }, inactiveCam] false)).cameras.length
      = (ManagerState.mk [{ inactiveCam with camera_id := "cam0" }, inactiveCam]
          false).cameras.length ∧
    ∃ c2 ∈ (CameraManager.start
        (fun cid => if cid == "cam0" then (⟨3, false⟩, 4) else (⟨7, true⟩, 5))
        (ManagerState.mk [{ inactiveCam with camera_id := "cam0" }, inactiveCam] false)).cameras,
      c2.camera_id = inactiveCam.camera_id ∧
      c2.cap = some ((fun cid => if cid == "cam0" then ((⟨3, false⟩ : CamHandle), 4)
        else (⟨7, true⟩, 5)) inactiveCam.camera_id).1 ∧
      (((fun cid => if cid == "cam0" then ((⟨3, false⟩ : CamHandle), 4)
          else (⟨7, true⟩, 5)) inactiveCam.camera_id).1.opened = true →
        c2.is_running = true ∧
        c2.threads = inactiveCam.threads ++
          [((fun cid => if cid == "cam0" then ((⟨3, false⟩ : CamHandle), 4)
            else (⟨7, true⟩, 5)) inactiveCam.camera_id).2])) :=
  ⟨by decide,
    camera_startAll_attempts_every_source
      (fun cid => if cid == "cam0" then (⟨3, false⟩, 4) else (⟨7, true⟩, 5))
      (ManagerState.mk [{ inactiveCam with camera_id := "cam0" }, inactiveCam] false)
      inactiveCam (by decide)⟩

/-! ## Detection pipeline (detection_engine.py, FaceMaskDetector / DetectionEngine)

`detect_faces` and `predict_mask` are the external inference steps; both are
parameters of the embedding, each of type `Except` so their raising an error
can be expressed.  `process_frame` wraps its whole body in `try/except`: an
error from `detect_faces` leaves the initial all-zero results dict, an error
from `predict_mask` mid-loop leaves the per-face data accumulated so far
(without the final average-confidence assignment); in both cases the results
dict built so far is RETURNED, not discarded. -/

/-- Per-face classification label. -/
inductive MaskLabel
  | mask
  | no_mask
  | unknown
deriving DecidableEq, Repr

/-- A face bounding box as returned by `detect_faces`. -/
structure BBox where
  x : Nat
  y : Nat
  w : Nat
  h : Nat
deriving DecidableEq, Repr

/-- One entry of the `detections` list of a results dict. -/
structure FaceDetection where
  bbox : BBox
  mask_status : MaskLabel
  confidence : ℚ
deriving DecidableEq, Repr

/-- The results dict built by `process_frame`. -/
structure FrameResults where
  faces_detected : Nat
  masks_detected : Nat
  no_masks_detected : Nat
  detections : List FaceDetection
  confidence_score : ℚ
deriving DecidableEq, Repr

/-- The initial results dict of `process_frame`. -/
def emptyResults : FrameResults :=
  { faces_detected := 0, masks_detected := 0, no_masks_detected := 0,
    detections := [], confidence_score := 0 }

/-- The per-face loop of `process_frame` over the remaining boxes, carrying
the accumulated results and `total_confidence`; when `predict_mask` raises,
the exception escapes to the `except` clause of `process_frame` and the
accumulated results are returned as they stand (the final average-confidence
assignment never runs); after a complete pass the average confidence is
filled in. -/
def processFacesLoop (predict : BBox → Except Unit (MaskLabel × ℚ)) (nfaces : Nat) :
    List BBox → FrameResults → ℚ → FrameResults
  | [], r, totalConf =>
    if 0 < nfaces then { r with confidence_score := totalConf / (nfaces : ℚ) } else r
  | b :: bs, r, totalConf =>
    match predict b with
    | Except.error _ => r
    | Except.ok (status, conf) =>
      let r1 := { r with
        detections := r.detections ++ [⟨b, status, conf⟩],
        masks_detected :=
          if status = MaskLabel.mask then r.masks_detected + 1 else r.masks_detected,
        no_masks_detected :=
          if status = MaskLabel.no_mask then r.no_masks_detected + 1
          else r.no_masks_detected }
      processFacesLoop predict nfaces bs r1 (totalConf + conf)

/-- `FaceMaskDetector.process_frame`, parameterised by the outcome of
`detect_faces` on this frame and by the per-face `predict_mask` step.  All
errors are caught inside the method and the results dict built so far is
returned — `process_frame` itself never raises. -/
def FaceMaskDetector.process_frame (detect : Except Unit (List BBox))
    (predict : BBox → Except Unit (MaskLabel × ℚ)) : FrameResults :=
  match detect with
  | Except.error _ => emptyResults
  | Except.ok faces =>
    let r0 := { emptyResults with faces_detected := faces.length }
    if faces.isEmpty then r0
    else processFacesLoop predict faces.length faces r0 0

/-- Number of per-face records classified `unknown`. -/
def unknownCount (l : List FaceDetection) : Nat :=
  (l.filter (fun fd => decide (fd.mask_status = MaskLabel.unknown))).length

lemma processFacesLoop_counts (predict : BBox → Except Unit (MaskLabel × ℚ))
    (classify : BBox → MaskLabel × ℚ) (hp : ∀ b, predict b = Except.ok (classify b))
    (nfaces : Nat) :
    ∀ (bs : List BBox) (r : FrameResults) (tc : ℚ),
    (processFacesLoop predict nfaces bs r tc).masks_detected
        + (processFacesLoop predict nfaces bs r tc).no_masks_detected
        + unknownCount (processFacesLoop predict nfaces bs r tc).detections
      = r.masks_detected + r.no_masks_detected + unknownCount r.detections + bs.length ∧
    (processFacesLoop predict nfaces bs r tc).faces_detected = r.faces_detected := by
  intro bs
  induction bs with
  | nil =>
    intro r tc
    by_cases hn : 0 < nfaces <;> simp [processFacesLoop, hn]
  | cons b bs ih =>
    intro r tc
    have hmain : processFacesLoop predict nfaces (b :: bs) r tc
        = processFacesLoop predict nfaces bs
            { r with
              detections := r.detections ++ [⟨b, (classify b).1, (classify b).2⟩],
              masks_detected :=
                if (classify b).1 = MaskLabel.mask then r.masks_detected + 1
                else r.masks_detected,
              no_masks_detected :=
                if (classify b).1 = MaskLabel.no_mask then r.no_masks_detected + 1
                else r.no_masks_detected }
            (tc + (classify b).2) := by
      simp [processFacesLoop, hp b]
    rw [hmain]
    refine ⟨?_, ((ih _ _).2).trans rfl⟩
    rw [(ih _ _).1]
    cases hcb : (classify b).1 <;>
      simp [unknownCount, List.filter_append, hcb] <;> omega

/-- C7: for every frame (any `detect_faces` outcome, including a raised
error) and every classifier output (any label and confidence `predict_mask`
returns per face), the DetectionResult built by `process_frame` satisfies
`masks_detected + no_masks_detected + unknown_count = faces_detected`, where
`unknown_count` is the number of per-face records classified unknown. -/
theorem detection_counts_invariant (detect : Except Unit (List BBox))
    (classify : BBox → MaskLabel × ℚ) :
    (FaceMaskDetector.process_frame detect (fun b => Except.ok (classify b))).masks_detected
      + (FaceMaskDetector.process_frame detect
          (fun b => Except.ok (classify b))).no_masks_detected
      + unknownCount (FaceMaskDetector.process_frame detect
          (fun b => Except.ok (classify b))).detections
    = (FaceMaskDetector.process_frame detect
        (fun b => Except.ok (classify b))).faces_detected := by
  cases detect with
  | error e => simp [FaceMaskDetector.process_frame, emptyResults, unknownCount]
  | ok faces =>
    by_cases hf : faces.isEmpty
    · rw [List.isEmpty_iff] at hf
      simp [FaceMaskDetector.process_frame, hf, emptyResults, unknownCount]
    · have h := processFacesLoop_counts (fun b => Except.ok (classify b)) classify
        (fun b => rfl) faces.length faces
        { emptyResults with faces_detected := faces.length } 0
      simp [FaceMaskDetector.process_frame, hf]
      rw [h.1, h.2]
      simp [emptyResults, unknownCount]

/-- A results dict after the worker added its metadata
(`camera_id`, `timestamp`); this is the object persisted by
`_save_detection` and pushed to the result queue. -/
structure DetectionMeta where
  results : FrameResults
  camera_id : String
  timestamp : Int
deriving DecidableEq, Repr

/-- The `DetectionEngine` state touched by `add_frame` and one worker
iteration: the bounded input queue, the bounded result queue, the database
writes made by `_save_detection`, and the processed-frames counter. -/
structure EngineState where
  frame_queue : List FrameEnvelope
  result_queue : List DetectionMeta
  saved_detections : List DetectionMeta
  total_frames_processed : Nat
deriving DecidableEq, Repr

/-- `DetectionEngine.add_frame`: `put_nowait` on the input queue;
`queue.Full` is caught and only logged, the frame being dropped.  The Python
method body has no `return` statement, so the caller receives `None` either
way — modelled as `Option Bool` with value `none`. -/
def DetectionEngine.add_frame (qsize : Nat) (st : EngineState) (fd : FrameEnvelope) :
    EngineState × Option Bool :=
  if 0 < qsize ∧ qsize ≤ st.frame_queue.length then
    (st, none)
  else
    ({ st with frame_queue := st.frame_queue ++ [fd] }, none)

/-- One iteration of `DetectionEngine._worker_loop` after a frame has been
popped from the input queue: run `process_frame` (which never raises —
inference errors are caught inside it), attach the metadata, persist via
`_save_detection` (its own errors are caught internally), push to the result
queue dropping on `queue.Full`, and update the statistics counter. -/
def DetectionEngine.workerStep (qsize : Nat) (detect : Except Unit (List BBox))
    (predict : BBox → Except Unit (MaskLabel × ℚ)) (fd : FrameEnvelope)
    (st : EngineState) : EngineState :=
  let dr := FaceMaskDetector.process_frame detect predict
  let res : DetectionMeta := ⟨dr, fd.camera_id, fd.timestamp⟩
  let st1 := { st with saved_detections := st.saved_detections ++ [res] }
  let st2 :=
    if 0 < qsize ∧ qsize ≤ st1.result_queue.length then st1
    else { st1 with result_queue := st1.result_queue ++ [res] }
  { st2 with total_frames_processed := st2.total_frames_processed + 1 }

/-- C5 counterexample: when the inference step (`detect_faces`) raises for a
frame, the worker does NOT abandon the iteration — a DetectionResult (with
all-zero counts) is still pushed to the output queue and persisted for that
frame, contradicting "no DetectionResult is emitted (nothing pushed, nothing
persisted)". -/
theorem worker_emits_result_on_inference_error_counterexample :
    (DetectionEngine.workerStep 100 (Except.error ())
        (fun _ => Except.ok (MaskLabel.mask, 0)) ⟨0, 0, "cam1"⟩
        ⟨[], [], [], 0⟩).result_queue = [⟨emptyResults, "cam1", 0⟩] ∧
    (DetectionEngine.workerStep 100 (Except.error ())
        (fun _ => Except.ok (MaskLabel.mask, 0)) ⟨0, 0, "cam1"⟩
        ⟨[], [], [], 0⟩).saved_detections = [⟨emptyResults, "cam1", 0⟩] := by
  decide

/-- C5 amended: an error raised by the inference step is caught and logged
inside `process_frame`, which returns the results dict built so far (the
all-zero dict when face detection itself fails); the worker then persists and
pushes that result and continues — the iteration is not abandoned and a
DetectionResult IS emitted for the frame. -/
theorem worker_inference_error_emits_zero_result
    (qsize : Nat) (predict : BBox → Except Unit (MaskLabel × ℚ))
    (fd : FrameEnvelope) (st : EngineState) (e : Unit)
    (hq : st.result_queue.length < qsize) :
    DetectionEngine.workerStep qsize (Except.error e) predict fd st
      = { st with
          saved_detections :=
            st.saved_detections ++ [⟨emptyResults, fd.camera_id, fd.timestamp⟩],
          result_queue :=
            st.result_queue ++ [⟨emptyResults, fd.camera_id, fd.timestamp⟩],
          total_frames_processed := st.total_frames_processed + 1 } := by
  have hcond : ¬(0 < qsize ∧ qsize ≤ st.result_queue.length) := by omega
  simp [DetectionEngine.workerStep, FaceMaskDetector.process_frame, hcond]

/-- Witness for the amended C5 at a concrete frame, empty engine state and
result-queue bound 100. -/
theorem worker_inference_error_emits_zero_result_witness :
    (EngineState.mk [] [] [] 0).result_queue.length < 100 ∧
    DetectionEngine.workerStep 100 (Except.error ())
        (fun _ => Except.ok (MaskLabel.mask, 0)) ⟨0, 0, "cam1"⟩ ⟨[], [], [], 0⟩
      = { EngineState.mk [] [] [] 0 with
          saved_detections := (EngineState.mk [] [] [] 0).saved_detections
            ++ [⟨emptyResults, (FrameEnvelope.mk 0 0 "cam1").camera_id,
                 (FrameEnvelope.mk 0 0 "cam1").timestamp⟩],
          result_queue := (EngineState.mk [] [] [] 0).result_queue
            ++ [⟨emptyResults, (FrameEnvelope.mk 0 0 "cam1").camera_id,
                 (FrameEnvelope.mk 0 0 "cam1").timestamp⟩],
          total_frames_processed := (EngineState.mk [] [] [] 0).total_frames_processed + 1 } :=
  ⟨by decide,
    worker_inference_error_emits_zero_result 100
      (fun _ => Except.ok (MaskLabel.mask, 0)) ⟨0, 0, "cam1"⟩ ⟨[], [], [], 0⟩ ()
      (by decide)⟩

/-- C9 counterexample: at a concrete call that does enqueue the frame,
`add_frame` does not return `True` — it returns no success flag at all
(Python `None`). -/
theorem add_frame_no_success_flag_counterexample :
    (DetectionEngine.add_frame 100 ⟨[], [], [], 0⟩ ⟨0, 0, "cam1"⟩).1.frame_queue
      = [⟨0, 0, "cam1"⟩] ∧
    (DetectionEngine.add_frame 100 ⟨[], [], [], 0⟩ ⟨0, 0, "cam1"⟩).2 ≠ some true := by
  decide

/-- C9 amended: `add_frame` performs a non-blocking push to the bounded
input queue — appending the envelope when there is room and dropping it
(with only a logged warning) when the queue is full — and returns `None` in
both cases: the caller receives no boolean success flag. -/
theorem add_frame_nonblocking_returns_none
    (qsize : Nat) (st : EngineState) (fd : FrameEnvelope) :
    DetectionEngine.add_frame qsize st fd
      = (if 0 < qsize ∧ qsize ≤ st.frame_queue.length then st
         else { st with frame_queue := st.frame_queue ++ [fd] }, none) := by
  by_cases h : 0 < qsize ∧ qsize ≤ st.frame_queue.length <;>
    simp [DetectionEngine.add_frame, h]
